import Mathlib

/-
Verification of the gemini computer-use browser-agent scripts.

The repository consists of three near-duplicate Python scripts
(src/agent.py, src/app.py, src/job_form.py), each implementing a
turn-based loop: a model proposes browser actions (as function calls
with normalized [0,1000] coordinates), an executor performs them
against a live page, and the per-action outcomes plus a single
post-turn screenshot and URL are fed back to the model.

This file gives a shallow embedding of the executor, the observation
builder, the coordinate mapper and the turn loop of each variant.
Browser effects are modelled as an explicit trace of BrowserOp values;
the nondeterministic environment (operator confirmations, exceptions
raised by browser operations, load-state timeouts) is supplied per
call through a CallEnv record.
-/

namespace CU

/- ----------------------------------------------------------------
   Coordinate mapper.

   Source (agent.py lines 22-27, job_form.py lines 29-34):
     def denorm_x(x): return int(x / 1000 * SCREEN_WIDTH)
   Source (app.py lines 37-41):
     def denormalize_x(x, screen_width): return int(x / 1000 * screen_width)

   Python evaluates this in IEEE-754 double precision: `x / 1000` is
   the correctly rounded double quotient, the product with the exact
   integer width is rounded again, and `int` truncates toward zero.
   The helpers below model that double rounding exactly for
   nonnegative inputs: a positive double is represented as an exact
   dyadic rational m / 2^k with a 53-bit mantissa m, obtained by
   round-to-nearest, ties-to-even.
   ---------------------------------------------------------------- -/

/-- Round the rational a / b to the nearest integer, ties to even. -/
def rne (a b : Nat) : Nat :=
  let q := a / b
  let r := a % b
  if 2 * r < b then q
  else if b < 2 * r then q + 1
  else if q % 2 = 0 then q else q + 1

/-- Fuel-bounded floor of log base 2 (structural recursion on fuel). -/
def log2fuel : Nat → Nat → Nat
  | 0, _ => 0
  | fuel + 1, n => if 2 ≤ n then log2fuel fuel (n / 2) + 1 else 0

/-- Exact value, as a scaled integer pipeline, of the Python
expression `int(x / 1000 * w)` computed in IEEE-754 double precision,
for 0 ≤ x ≤ 1000 and small positive w.  Step 1 rounds x / 1000 to a
53-bit mantissa m1 / 2^k; step 2 rounds m1 * w / 2^k to a 53-bit
mantissa m2 / 2^k2; the result is the truncation of m2 / 2^k2. -/
def pyDenorm (x w : Nat) : Nat :=
  if x = 0 then 0
  else
    let L1 := log2fuel 64 (x * 1048576 / 1000)
    let k := 72 - L1
    let m1 := rne (x * 2 ^ k) 1000
    let L2 := log2fuel 128 (m1 * w)
    let k2 := k + 52 - L2
    let m2 := rne (m1 * w) (2 ^ (L2 - 52))
    m2 / 2 ^ k2

/-- Viewport width constant shared by all three scripts. -/
def SCREEN_WIDTH : Nat := 1440

/-- Viewport height constant shared by all three scripts. -/
def SCREEN_HEIGHT : Nat := 900

/-- Embeds agent.py / job_form.py denorm_x. -/
def denorm_x (x : Nat) : Nat := pyDenorm x SCREEN_WIDTH

/-- Embeds agent.py / job_form.py denorm_y. -/
def denorm_y (y : Nat) : Nat := pyDenorm y SCREEN_HEIGHT

/-- Embeds app.py denormalize_x (screen width passed as a parameter). -/
def denormalize_x (x screen_width : Nat) : Nat := pyDenorm x screen_width

/-- Embeds app.py denormalize_y. -/
def denormalize_y (y screen_height : Nat) : Nat := pyDenorm y screen_height

/- ----------------------------------------------------------------
   Browser operations and the model-facing data model.
   ---------------------------------------------------------------- -/

/-- One concrete operation performed against the browser session,
including the post-action settling waits. -/
inductive BrowserOp where
  | mouseClick (x y : Nat)
  | mouseMove (x y : Nat)
  | mouseWheel (dx dy : Int)
  | mouseDown
  | mouseUp
  | keyPress (keys : String)
  | keyType (text : String)
  | goto (url : String)
  | goBack
  | goForward
  | evalJs (js : String)
  | sleep (ms : Nat)
  | waitForLoadState (timeoutMs : Nat)
deriving DecidableEq, Repr

/-- Argument bag of a model-issued function call.  Optional fields are
Option-valued exactly where the scripts use args.get with a default;
safety_decision records whether the key "safety_decision" is present. -/
structure Args where
  x : Nat := 0
  y : Nat := 0
  destination_x : Nat := 0
  destination_y : Nat := 0
  url : String := ""
  text : String := ""
  keys : String := ""
  direction : Option String := none
  magnitude : Option Int := none
  clear_before_typing : Option Bool := none
  press_enter : Option Bool := none
  safety_decision : Bool := false
deriving DecidableEq, Repr

/-- A function call proposed by the model: an action name and its args. -/
structure FunctionCall where
  name : String
  args : Args
deriving DecidableEq, Repr

/-- The result payload dict attached to one action outcome. -/
structure Payload where
  error : Option String := none
  warning : Option String := none
  safety_acknowledgement : Bool := false
deriving DecidableEq, Repr

/-- Environment behaviour for one call: the operator's answer if a
safety prompt is shown, whether (and after how many completed browser
operations, with which message) the browser operation raises, and
whether the post-action load-state wait times out. -/
structure CallEnv where
  userAllows : Bool := true
  opFailure : Option (Nat × String) := none
  loadWaitTimesOut : Bool := false
deriving DecidableEq, Repr

/-- A call is denied when it carries a safety_decision and the
operator answers no. -/
def deniedQ (fc : FunctionCall) (env : CallEnv) : Bool :=
  fc.args.safety_decision && !env.userAllows

/- ----------------------------------------------------------------
   Action dispatch tables: the browser operations performed by the
   recognized branch for each action name, per script.
   ---------------------------------------------------------------- -/

/-- Action names recognized by the dispatch chain of agent.py
(lines 65-115). -/
def recognizedAgent (name : String) : Bool :=
  name == "open_web_browser" || name == "wait_5_seconds" ||
  name == "go_back" || name == "go_forward" || name == "search" ||
  name == "navigate" || name == "click_at" || name == "hover_at" ||
  name == "type_text_at" || name == "key_combination" ||
  name == "scroll_document" || name == "scroll_at" || name == "drag_and_drop"

/-- Browser operations performed by agent.py for one recognized call
(exec_calls lines 65-115); an unrecognized name performs none. -/
def dispatchAgent (name : String) (a : Args) : List BrowserOp :=
  if name == "open_web_browser" then []
  else if name == "wait_5_seconds" then [.sleep 5000]
  else if name == "go_back" then [.goBack]
  else if name == "go_forward" then [.goForward]
  else if name == "search" then [.goto "https://www.google.com"]
  else if name == "navigate" then [.goto a.url]
  else if name == "click_at" then [.mouseClick (denorm_x a.x) (denorm_y a.y)]
  else if name == "hover_at" then [.mouseMove (denorm_x a.x) (denorm_y a.y)]
  else if name == "type_text_at" then
    [BrowserOp.mouseClick (denorm_x a.x) (denorm_y a.y)]
      ++ (if a.clear_before_typing.getD true then
            [BrowserOp.keyPress "Meta+A", BrowserOp.keyPress "Backspace"]
          else [])
      ++ [BrowserOp.keyType a.text]
      ++ (if a.press_enter.getD true then [BrowserOp.keyPress "Enter"] else [])
  else if name == "key_combination" then [.keyPress a.keys]
  else if name == "scroll_document" then
    let d := (a.direction.getD "down").toLower
    if d == "down" then [.keyPress "PageDown"]
    else if d == "up" then [.keyPress "PageUp"]
    else if d == "left" then [.evalJs "window.scrollBy(-400, 0)"]
    else if d == "right" then [.evalJs "window.scrollBy(400, 0)"]
    else []
  else if name == "scroll_at" then
    let m := a.magnitude.getD 800
    let d := (a.direction.getD "down").toLower
    [.mouseMove (denorm_x a.x) (denorm_y a.y),
     .mouseWheel 0 (if d == "down" then m else -m)]
  else if name == "drag_and_drop" then
    [.mouseMove (denorm_x a.x) (denorm_y a.y), .mouseDown,
     .mouseMove (denorm_x a.destination_x) (denorm_y a.destination_y), .mouseUp]
  else []

/-- Action names recognized by the dispatch chain of job_form.py
(lines 60-82). -/
def recognizedJob (name : String) : Bool :=
  name == "open_web_browser" || name == "navigate" || name == "click_at" ||
  name == "type_text_at" || name == "scroll_document" || name == "key_combination"

/-- Browser operations performed by job_form.py for one recognized
call (exec_calls lines 60-82); note press_enter defaults to false here. -/
def dispatchJob (name : String) (a : Args) : List BrowserOp :=
  if name == "open_web_browser" then []
  else if name == "navigate" then [.goto a.url]
  else if name == "click_at" then [.mouseClick (denorm_x a.x) (denorm_y a.y)]
  else if name == "type_text_at" then
    [BrowserOp.mouseClick (denorm_x a.x) (denorm_y a.y)]
      ++ (if a.clear_before_typing.getD true then
            [BrowserOp.keyPress "Meta+A", BrowserOp.keyPress "Backspace"]
          else [])
      ++ [BrowserOp.keyType a.text]
      ++ (if a.press_enter.getD false then [BrowserOp.keyPress "Enter"] else [])
  else if name == "scroll_document" then
    let d := (a.direction.getD "down").toLower
    if d == "down" then [.keyPress "PageDown"]
    else if d == "up" then [.keyPress "PageUp"]
    else []
  else if name == "key_combination" then [.keyPress a.keys]
  else []

/-- Browser operations performed by app.py for one recognized call
(execute_function_calls lines 70-91).  type_text_at always clears the
field (no clear_before_typing check) and an unrecognized name only
prints a message, setting no warning field. -/
def dispatchApp (name : String) (a : Args) (w h : Nat) : List BrowserOp :=
  if name == "open_web_browser" then []
  else if name == "click_at" then [.mouseClick (denormalize_x a.x w) (denormalize_y a.y h)]
  else if name == "type_text_at" then
    [BrowserOp.mouseClick (denormalize_x a.x w) (denormalize_y a.y h),
     BrowserOp.keyPress "Meta+A", BrowserOp.keyPress "Backspace",
     BrowserOp.keyType a.text]
      ++ (if a.press_enter.getD true then [BrowserOp.keyPress "Enter"] else [])
  else if name == "scroll_document" then
    let d := a.direction.getD "down"
    [.mouseWheel 0 (if d == "down" then (1000 : Int) else -1000)]
  else if name == "key_combination" then [.keyPress a.keys]
  else []

/- ----------------------------------------------------------------
   Executors.  Each executor consumes the turn's function calls
   (paired with their environment behaviour) and produces the ordered
   outcome list plus the trace of browser operations performed.
   ---------------------------------------------------------------- -/

namespace Agent

/-- Payload and performed operations for one non-denied call of
agent.py exec_calls (lines 63-129): the warning is set only on the
unrecognized branch; an exception interrupts the operation sequence
and skips the load-state wait and the settling sleep, which both sit
inside the try block (lines 120-124); the load-state wait swallows
its own errors, so the call behaviour never depends on a timeout. -/
def stepPayload (fc : FunctionCall) (env : CallEnv) : Payload × List BrowserOp :=
  let ops := dispatchAgent fc.name fc.args
  let base : Payload :=
    { warning := if recognizedAgent fc.name then none else some "unimplemented_action",
      safety_acknowledgement := fc.args.safety_decision }
  match env.opFailure with
  | some kmsg =>
      if kmsg.1 < ops.length then
        ({ base with error := some kmsg.2 }, ops.take kmsg.1)
      else (base, ops ++ [.waitForLoadState 5000, .sleep 600])
  | none => (base, ops ++ [.waitForLoadState 5000, .sleep 600])

/-- Embeds agent.py exec_calls (lines 41-131).  A denied safety
confirmation appends the user_denied outcome and returns at once. -/
def exec_calls : List (FunctionCall × CallEnv) → List (String × Payload) × List BrowserOp
  | [] => ([], [])
  | (fc, env) :: rest =>
    if deniedQ fc env then
      ([(fc.name, { error := some "user_denied" })], [])
    else
      let pr := stepPayload fc env
      let tl := exec_calls rest
      ((fc.name, pr.1) :: tl.1, pr.2 ++ tl.2)

end Agent

namespace JobForm

/-- Payload and performed operations for one non-denied call of
job_form.py exec_calls (lines 58-95): same structure as agent.py but
with a 4000 ms load wait, a 0.5 s settle and the warning string
"unimplemented". -/
def stepPayload (fc : FunctionCall) (env : CallEnv) : Payload × List BrowserOp :=
  let ops := dispatchJob fc.name fc.args
  let base : Payload :=
    { warning := if recognizedJob fc.name then none else some "unimplemented",
      safety_acknowledgement := fc.args.safety_decision }
  match env.opFailure with
  | some kmsg =>
      if kmsg.1 < ops.length then
        ({ base with error := some kmsg.2 }, ops.take kmsg.1)
      else (base, ops ++ [.waitForLoadState 4000, .sleep 500])
  | none => (base, ops ++ [.waitForLoadState 4000, .sleep 500])

/-- Embeds job_form.py exec_calls (lines 44-96). -/
def exec_calls : List (FunctionCall × CallEnv) → List (String × Payload) × List BrowserOp
  | [] => ([], [])
  | (fc, env) :: rest =>
    if deniedQ fc env then
      ([(fc.name, { error := some "user_denied" })], [])
    else
      let pr := stepPayload fc env
      let tl := exec_calls rest
      ((fc.name, pr.1) :: tl.1, pr.2 ++ tl.2)

end JobForm

namespace App

/-- Payload and performed operations of the try/except around one
dispatch of app.py execute_function_calls (lines 70-94): an exception
is caught and stored in the error field; no warning field exists in
this script. -/
def stepPayload (w h : Nat) (fc : FunctionCall) (env : CallEnv) : Payload × List BrowserOp :=
  let ops := dispatchApp fc.name fc.args w h
  match env.opFailure with
  | some kmsg =>
      if kmsg.1 < ops.length then
        ({ error := some kmsg.2, safety_acknowledgement := fc.args.safety_decision },
         ops.take kmsg.1)
      else ({ safety_acknowledgement := fc.args.safety_decision }, ops)
  | none => ({ safety_acknowledgement := fc.args.safety_decision }, ops)

/-- Embeds app.py execute_function_calls (lines 51-99).  Differences
from the other two scripts, all visible in the source: a denied
confirmation breaks out of the loop without recording any outcome
(lines 65-67); the load-state wait at line 96 sits outside the
try/except and is unguarded, so a timeout there propagates out of the
function as an exception (modelled as Except.error), discarding the
collected outcome list; the outcome of the current call is appended
only after the wait and the 1 s sleep (line 98). -/
def execute_function_calls (w h : Nat) :
    List (FunctionCall × CallEnv) → Except String (List (String × Payload)) × List BrowserOp
  | [] => (.ok [], [])
  | (fc, env) :: rest =>
    if deniedQ fc env then (.ok [], [])
    else
      let pd := stepPayload w h fc env
      if env.loadWaitTimesOut then
        (.error "Timeout 8000ms exceeded.", pd.2 ++ [.waitForLoadState 8000])
      else
        let tl := execute_function_calls w h rest
        match tl.1 with
        | .error e => (.error e, pd.2 ++ [.waitForLoadState 8000, .sleep 1000] ++ tl.2)
        | .ok outs =>
            (.ok ((fc.name, pd.1) :: outs), pd.2 ++ [.waitForLoadState 8000, .sleep 1000] ++ tl.2)

end App

/- ----------------------------------------------------------------
   Observation builders.  The page is modelled with effect counters so
   that the number of screenshot captures and URL reads is visible.
   ---------------------------------------------------------------- -/

/-- Page handle for observation building: current screenshot bytes
(abstracted to a token) and URL, plus counters of effects performed. -/
structure Page where
  shotData : Nat
  url : String
  screenshotCount : Nat := 0
  urlReadCount : Nat := 0
deriving DecidableEq, Repr

/-- Capture a screenshot, bumping the capture counter. -/
def Page.screenshot (p : Page) : Nat × Page :=
  (p.shotData, { p with screenshotCount := p.screenshotCount + 1 })

/-- Read the current URL, bumping the read counter. -/
def Page.readUrl (p : Page) : String × Page :=
  (p.url, { p with urlReadCount := p.urlReadCount + 1 })

/-- One function response sent back to the model: the action name, the
response dict (url plus the outcome payload) and the inline image. -/
structure FunctionResponse where
  name : String
  url : String
  payload : Payload
  image : Nat
deriving DecidableEq, Repr

namespace Agent

/-- Embeds agent.py build_function_responses (lines 134-153): one
screenshot and one URL read before the loop, then every outcome is
paired with that same screenshot and URL. -/
def build_function_responses (page : Page) (results : List (String × Payload)) :
    List FunctionResponse × Page :=
  let s := page.screenshot
  let u := s.2.readUrl
  (results.map (fun r => { name := r.1, url := u.1, payload := r.2, image := s.1 }), u.2)

end Agent

namespace App

/-- Embeds app.py get_function_responses (lines 101-118), identical in
structure to agent.py build_function_responses. -/
def get_function_responses (page : Page) (results : List (String × Payload)) :
    List FunctionResponse × Page :=
  let s := page.screenshot
  let u := s.2.readUrl
  (results.map (fun r => { name := r.1, url := u.1, payload := r.2, image := s.1 }), u.2)

end App

/- ----------------------------------------------------------------
   Turn loops.  The model is abstracted as an oracle giving, per turn
   index, the list of function calls of the candidate response (empty
   list = a response with no function calls), with the environment
   behaviour of each call.
   ---------------------------------------------------------------- -/

/-- How a session run ended: the model produced a response with no
function calls (done), or the 10-turn budget was exhausted (budget). -/
inductive TermStatus where
  | done
  | budget
deriving DecidableEq, Repr

/-- Result of a session run: how it ended, how many model requests
were made, and the outcome lists of the executed turns. -/
structure SessionResult where
  status : TermStatus
  modelCalls : Nat
  turnOutcomes : List (List (String × Payload))
deriving DecidableEq, Repr

namespace Agent

/-- Turn loop of agent.py main (lines 211-236), from a given turn
index with the given fuel: each iteration performs one model request;
a response without function calls breaks with the final text (done);
otherwise the actions are executed, the responses are appended to the
history, and the loop continues.  Nothing in the loop inspects the
outcomes for a denial: the for-else reaches budget exhaustion or a
no-action response only. -/
def loopFrom (oracle : Nat → List (FunctionCall × CallEnv)) :
    Nat → Nat → SessionResult
  | _, 0 => { status := .budget, modelCalls := 0, turnOutcomes := [] }
  | turn, fuel + 1 =>
    let resp := oracle turn
    if resp.isEmpty then
      { status := .done, modelCalls := 1, turnOutcomes := [] }
    else
      let rs := exec_calls resp
      let tl := loopFrom oracle (turn + 1) fuel
      { status := tl.status, modelCalls := tl.modelCalls + 1,
        turnOutcomes := rs.1 :: tl.turnOutcomes }

/-- Embeds the session loop of agent.py main: for turn in range(10). -/
def runSession (oracle : Nat → List (FunctionCall × CallEnv)) : SessionResult :=
  loopFrom oracle 0 10

end Agent

namespace JobForm

/-- Turn loop of job_form.py main (lines 173-191), identical in shape
to agent.py but executing through job_form exec_calls. -/
def loopFrom (oracle : Nat → List (FunctionCall × CallEnv)) :
    Nat → Nat → SessionResult
  | _, 0 => { status := .budget, modelCalls := 0, turnOutcomes := [] }
  | turn, fuel + 1 =>
    let resp := oracle turn
    if resp.isEmpty then
      { status := .done, modelCalls := 1, turnOutcomes := [] }
    else
      let rs := exec_calls resp
      let tl := loopFrom oracle (turn + 1) fuel
      { status := tl.status, modelCalls := tl.modelCalls + 1,
        turnOutcomes := rs.1 :: tl.turnOutcomes }

/-- Embeds the session loop of job_form.py main: TURN_LIMIT is 10. -/
def TURN_LIMIT : Nat := 10

/-- Session loop of job_form.py main. -/
def runSession (oracle : Nat → List (FunctionCall × CallEnv)) : SessionResult :=
  loopFrom oracle 0 TURN_LIMIT

end JobForm

end CU

open CU

/- ----------------------------------------------------------------
   Concrete fixtures used by witnesses and counterexamples.
   ---------------------------------------------------------------- -/

/-- A plain navigation call. -/
def navCall : FunctionCall := { name := "navigate", args := { url := "https://example.com" } }

/-- A plain click call at the centre of the normalized grid. -/
def clickCall : FunctionCall := { name := "click_at", args := { x := 500, y := 500 } }

/-- A click call carrying a safety_decision payload. -/
def riskyCall : FunctionCall :=
  { name := "click_at", args := { x := 100, y := 100, safety_decision := true } }

/-- A call whose action name no script recognizes. -/
def fooCall : FunctionCall := { name := "take_screenshot", args := {} }

/-- A type_text_at call that omits clear_before_typing. -/
def typeCall : FunctionCall :=
  { name := "type_text_at", args := { x := 200, y := 300, text := "hello" } }

/-- A key-combination call. -/
def keysCall : FunctionCall := { name := "key_combination", args := { keys := "Enter" } }

/-- Benign environment: operator allows, nothing fails. -/
def okEnv : CallEnv := {}

/-- Environment in which the operator answers no to the safety prompt. -/
def denyEnv : CallEnv := { userAllows := false }

/-- Environment in which the browser operation raises before its first
operation completes. -/
def failEnv : CallEnv := { opFailure := some (0, "net::ERR_ABORTED") }

/-- Environment in which the browser operation raises and the
subsequent load-state wait also times out. -/
def failTimeoutEnv : CallEnv :=
  { opFailure := some (0, "net::ERR_ABORTED"), loadWaitTimesOut := true }

/-- Environment in which the operator allows the safety prompt and the
browser operation then raises. -/
def allowFailEnv : CallEnv := { opFailure := some (0, "boom") }

/-- Model oracle that proposes one safety-gated call on turn 0 (which
the operator will deny) and a plain text answer on turn 1. -/
def denyOracle : Nat → List (FunctionCall × CallEnv) :=
  fun turn => if turn = 0 then [(riskyCall, denyEnv)] else []

/- ----------------------------------------------------------------
   Coordinate mapper facts.
   ---------------------------------------------------------------- -/

/-- Membership extraction for exhaustive boolean checks over List.range. -/
theorem range_all_true {p : Nat → Bool} {N n : Nat}
    (h : (List.range N).all p = true) (hn : n < N) : p n = true :=
  List.all_eq_true.mp h n (List.mem_range.mpr hn)

set_option maxRecDepth 40000 in
set_option maxHeartbeats 1600000 in
/-- Exhaustive check of the coordinate mapper over the whole
normalized domain: the y mapper agrees with exact floor division
everywhere, the x mapper agrees except at 175, 350, 575 and 700 where
the double-precision product falls just below the exact integer. -/
theorem denorm_check :
    ((List.range 1001).all fun n =>
      decide (denorm_y n = n * 900 / 1000 ∧
        denorm_x n = (if n = 175 ∨ n = 350 ∨ n = 575 ∨ n = 700
                      then n * 1440 / 1000 - 1 else n * 1440 / 1000))) = true := by
  decide

/-- Pointwise form of the y-mapper check. -/
theorem denorm_y_eq {n : Nat} (h : n ≤ 1000) : denorm_y n = n * 900 / 1000 :=
  (of_decide_eq_true (range_all_true denorm_check (by omega))).1

/-- Pointwise form of the x-mapper check. -/
theorem denorm_x_eq {n : Nat} (h : n ≤ 1000) :
    denorm_x n = (if n = 175 ∨ n = 350 ∨ n = 575 ∨ n = 700
                  then n * 1440 / 1000 - 1 else n * 1440 / 1000) :=
  (of_decide_eq_true (range_all_true denorm_check (by omega))).2

/-- The y mapper is monotonic on the normalized domain. -/
theorem denorm_y_mono {m n : Nat} (hmn : m ≤ n) (hn : n ≤ 1000) :
    denorm_y m ≤ denorm_y n := by
  rw [denorm_y_eq (le_trans hmn hn), denorm_y_eq hn]
  exact Nat.div_le_div_right (Nat.mul_le_mul_right _ hmn)

/-- The x mapper is monotonic on the normalized domain. -/
theorem denorm_x_mono {m n : Nat} (hmn : m ≤ n) (hn : n ≤ 1000) :
    denorm_x m ≤ denorm_x n := by
  rcases Nat.eq_or_lt_of_le hmn with rfl | hlt
  · exact Nat.le_refl _
  · rw [denorm_x_eq (le_of_lt (lt_of_lt_of_le hlt hn)), denorm_x_eq hn]
    split <;> split <;> omega

/-- C6 counterexample: at normalized x = 175 on the 1440-wide viewport
the mapper returns 251, while the exact value 175 / 1000 * 1440 is the
integer 252, whose floor is 252; the claimed floor formula fails. -/
theorem c6_counterexample :
    denorm_x 175 = 251 ∧ ⌊(175 : ℚ) / 1000 * 1440⌋ = (252 : ℤ) ∧ (251 : ℕ) ≠ 252 := by
  refine ⟨by decide, ?_, by decide⟩
  have h : (175 : ℚ) / 1000 * 1440 = 252 := by norm_num
  rw [h]
  norm_num

/-- C6 (amended): on the normalized domain the y mapper equals
floor(n * 900 / 1000) everywhere, and the x mapper equals
floor(n * 1440 / 1000) except at n = 175, 350, 575, 700 where the
double-precision rounding makes it return one less; the endpoint,
centre and monotonicity properties hold as claimed. -/
theorem c6_coordinate_mapper (m n : Nat) (hmn : m ≤ n) (hn : n ≤ 1000) :
    denorm_y n = n * 900 / 1000 ∧
    denorm_x n = (if n = 175 ∨ n = 350 ∨ n = 575 ∨ n = 700
                  then n * 1440 / 1000 - 1 else n * 1440 / 1000) ∧
    denormalize_x n 1440 = denorm_x n ∧
    denormalize_y n 900 = denorm_y n ∧
    denorm_x 0 = 0 ∧ denorm_x 1000 = 1440 ∧
    denorm_y 0 = 0 ∧ denorm_y 1000 = 900 ∧
    denorm_x 500 = 720 ∧ denorm_y 500 = 450 ∧
    denorm_x m ≤ denorm_x n ∧ denorm_y m ≤ denorm_y n := by
  refine ⟨denorm_y_eq hn, denorm_x_eq hn, rfl, rfl, by decide, by decide, by decide,
    by decide, by decide, by decide, denorm_x_mono hmn hn, denorm_y_mono hmn hn⟩

/-- Witness for c6_coordinate_mapper at m = 100, n = 175. -/
theorem c6_coordinate_mapper_witness :
    denorm_x 100 ≤ denorm_x 175 ∧ denorm_x 175 = 251 := by
  have h := c6_coordinate_mapper 100 175 (by decide) (by decide)
  refine ⟨h.2.2.2.2.2.2.2.2.2.2.1, ?_⟩
  have h2 := h.2.1
  norm_num at h2
  exact h2

/- ----------------------------------------------------------------
   Unfolding lemmas for the executors.
   ---------------------------------------------------------------- -/

/-- Agent executor on a call the safety gate lets through. -/
theorem agent_exec_cons_allowed {fc : FunctionCall} {env : CallEnv}
    (rest : List (FunctionCall × CallEnv)) (h : deniedQ fc env = false) :
    Agent.exec_calls ((fc, env) :: rest) =
      ((fc.name, (Agent.stepPayload fc env).1) :: (Agent.exec_calls rest).1,
       (Agent.stepPayload fc env).2 ++ (Agent.exec_calls rest).2) := by
  simp [Agent.exec_calls, h]

/-- Agent executor on a denied call: one user_denied outcome, nothing
executed, the tail discarded. -/
theorem agent_exec_cons_denied {fc : FunctionCall} {env : CallEnv}
    (rest : List (FunctionCall × CallEnv)) (h : deniedQ fc env = true) :
    Agent.exec_calls ((fc, env) :: rest) =
      ([(fc.name, { error := some "user_denied" })], []) := by
  simp [Agent.exec_calls, h]

/-- Agent executor distributes over an append whose first part
contains no denied call. -/
theorem agent_exec_append {pre : List (FunctionCall × CallEnv)}
    (rest : List (FunctionCall × CallEnv))
    (h : ∀ c ∈ pre, deniedQ c.1 c.2 = false) :
    Agent.exec_calls (pre ++ rest) =
      ((Agent.exec_calls pre).1 ++ (Agent.exec_calls rest).1,
       (Agent.exec_calls pre).2 ++ (Agent.exec_calls rest).2) := by
  induction pre with
  | nil => simp [Agent.exec_calls]
  | cons c pre ih =>
      obtain ⟨fc, env⟩ := c
      have hc : deniedQ fc env = false := h _ (List.mem_cons_self _ _)
      have hr : ∀ c ∈ pre, deniedQ c.1 c.2 = false :=
        fun c hm => h c (List.mem_cons_of_mem _ hm)
      rw [List.cons_append, agent_exec_cons_allowed _ hc, agent_exec_cons_allowed _ hc,
        ih hr]
      simp

/-- JobForm executor on a call the safety gate lets through. -/
theorem job_exec_cons_allowed {fc : FunctionCall} {env : CallEnv}
    (rest : List (FunctionCall × CallEnv)) (h : deniedQ fc env = false) :
    JobForm.exec_calls ((fc, env) :: rest) =
      ((fc.name, (JobForm.stepPayload fc env).1) :: (JobForm.exec_calls rest).1,
       (JobForm.stepPayload fc env).2 ++ (JobForm.exec_calls rest).2) := by
  simp [JobForm.exec_calls, h]

/-- JobForm executor on a denied call. -/
theorem job_exec_cons_denied {fc : FunctionCall} {env : CallEnv}
    (rest : List (FunctionCall × CallEnv)) (h : deniedQ fc env = true) :
    JobForm.exec_calls ((fc, env) :: rest) =
      ([(fc.name, { error := some "user_denied" })], []) := by
  simp [JobForm.exec_calls, h]

/-- JobForm executor distributes over an append whose first part
contains no denied call. -/
theorem job_exec_append {pre : List (FunctionCall × CallEnv)}
    (rest : List (FunctionCall × CallEnv))
    (h : ∀ c ∈ pre, deniedQ c.1 c.2 = false) :
    JobForm.exec_calls (pre ++ rest) =
      ((JobForm.exec_calls pre).1 ++ (JobForm.exec_calls rest).1,
       (JobForm.exec_calls pre).2 ++ (JobForm.exec_calls rest).2) := by
  induction pre with
  | nil => simp [JobForm.exec_calls]
  | cons c pre ih =>
      obtain ⟨fc, env⟩ := c
      have hc : deniedQ fc env = false := h _ (List.mem_cons_self _ _)
      have hr : ∀ c ∈ pre, deniedQ c.1 c.2 = false :=
        fun c hm => h c (List.mem_cons_of_mem _ hm)
      rw [List.cons_append, job_exec_cons_allowed _ hc, job_exec_cons_allowed _ hc,
        ih hr]
      simp

/-- App executor on an allowed call whose load-state wait completes. -/
theorem app_exec_cons_allowed {w h : Nat} {fc : FunctionCall} {env : CallEnv}
    (rest : List (FunctionCall × CallEnv)) (hd : deniedQ fc env = false)
    (ht : env.loadWaitTimesOut = false) :
    App.execute_function_calls w h ((fc, env) :: rest) =
      (match (App.execute_function_calls w h rest).1 with
       | .error e => .error e
       | .ok outs => .ok ((fc.name, (App.stepPayload w h fc env).1) :: outs),
       (App.stepPayload w h fc env).2 ++ [.waitForLoadState 8000, .sleep 1000]
         ++ (App.execute_function_calls w h rest).2) := by
  simp only [App.execute_function_calls, hd, ht, Bool.false_eq_true, if_false]
  cases hres : (App.execute_function_calls w h rest).1 <;> simp [hres]

/-- App executor on a denied call: the loop breaks, recording nothing. -/
theorem app_exec_cons_denied {w h : Nat} {fc : FunctionCall} {env : CallEnv}
    (rest : List (FunctionCall × CallEnv)) (hd : deniedQ fc env = true) :
    App.execute_function_calls w h ((fc, env) :: rest) = (.ok [], []) := by
  simp [App.execute_function_calls, hd]

/-- App executor on an allowed call whose load-state wait times out:
the exception propagates and the collected outcomes are lost. -/
theorem app_exec_cons_timeout {w h : Nat} {fc : FunctionCall} {env : CallEnv}
    (rest : List (FunctionCall × CallEnv)) (hd : deniedQ fc env = false)
    (ht : env.loadWaitTimesOut = true) :
    App.execute_function_calls w h ((fc, env) :: rest) =
      (.error "Timeout 8000ms exceeded.",
       (App.stepPayload w h fc env).2 ++ [.waitForLoadState 8000]) := by
  simp [App.execute_function_calls, hd, ht]

/-- App executor yields one ok outcome per call, in order, when no
call is denied and no load-state wait times out. -/
theorem app_exec_ok_names {w h : Nat} {l : List (FunctionCall × CallEnv)}
    (hd : ∀ c ∈ l, deniedQ c.1 c.2 = false)
    (ht : ∀ c ∈ l, c.2.loadWaitTimesOut = false) :
    ∃ outs, (App.execute_function_calls w h l).1 = .ok outs ∧
      outs.map Prod.fst = l.map (fun c => c.1.name) := by
  induction l with
  | nil => exact ⟨[], rfl, rfl⟩
  | cons c l ih =>
      obtain ⟨fc, env⟩ := c
      obtain ⟨outs, ho, hn⟩ :=
        ih (fun c hm => hd c (List.mem_cons_of_mem _ hm))
          (fun c hm => ht c (List.mem_cons_of_mem _ hm))
      rw [app_exec_cons_allowed l (hd _ (List.mem_cons_self _ _))
        (ht _ (List.mem_cons_self _ _))]
      refine ⟨(fc.name, (App.stepPayload w h fc env).1) :: outs, ?_, by simp [hn]⟩
      simp [ho]

/-- App executor ignores everything from the first denied call on,
returning exactly the result of the preceding calls. -/
theorem app_exec_denied_trunc {w h : Nat} {pre : List (FunctionCall × CallEnv)}
    (post : List (FunctionCall × CallEnv)) (d : FunctionCall × CallEnv)
    (hpre : ∀ c ∈ pre, deniedQ c.1 c.2 = false) (hd : deniedQ d.1 d.2 = true) :
    App.execute_function_calls w h (pre ++ d :: post) =
      App.execute_function_calls w h pre := by
  induction pre with
  | nil =>
      obtain ⟨fc, env⟩ := d
      rw [List.nil_append, app_exec_cons_denied post hd]
      rfl
  | cons c pre ih =>
      obtain ⟨fc, env⟩ := c
      have hc : deniedQ fc env = false := hpre _ (List.mem_cons_self _ _)
      have hr : ∀ c ∈ pre, deniedQ c.1 c.2 = false :=
        fun c hm => hpre c (List.mem_cons_of_mem _ hm)
      by_cases hto : env.loadWaitTimesOut = true
      · rw [List.cons_append, app_exec_cons_timeout _ hc hto,
          app_exec_cons_timeout _ hc hto]
      · have hto2 : env.loadWaitTimesOut = false := by
          cases hx : env.loadWaitTimesOut
          · rfl
          · exact absurd hx hto
        rw [List.cons_append, app_exec_cons_allowed _ hc hto2,
          app_exec_cons_allowed _ hc hto2, ih hr]

/-- Without a denial the agent executor emits one outcome per call,
bearing the call names in order. -/
theorem agent_exec_names {l : List (FunctionCall × CallEnv)}
    (h : ∀ c ∈ l, deniedQ c.1 c.2 = false) :
    (Agent.exec_calls l).1.map Prod.fst = l.map (fun c => c.1.name) := by
  induction l with
  | nil => rfl
  | cons c l ih =>
      obtain ⟨fc, env⟩ := c
      rw [agent_exec_cons_allowed _ (h _ (List.mem_cons_self _ _))]
      simp [ih (fun c hm => h c (List.mem_cons_of_mem _ hm))]

/-- Without a denial the agent executor emits exactly one outcome per
call. -/
theorem agent_exec_length {l : List (FunctionCall × CallEnv)}
    (h : ∀ c ∈ l, deniedQ c.1 c.2 = false) :
    (Agent.exec_calls l).1.length = l.length := by
  have hn := agent_exec_names h
  have := congrArg List.length hn
  simpa using this

/-- Without a denial the job_form executor emits one outcome per call,
bearing the call names in order. -/
theorem job_exec_names {l : List (FunctionCall × CallEnv)}
    (h : ∀ c ∈ l, deniedQ c.1 c.2 = false) :
    (JobForm.exec_calls l).1.map Prod.fst = l.map (fun c => c.1.name) := by
  induction l with
  | nil => rfl
  | cons c l ih =>
      obtain ⟨fc, env⟩ := c
      rw [job_exec_cons_allowed _ (h _ (List.mem_cons_self _ _))]
      simp [ih (fun c hm => h c (List.mem_cons_of_mem _ hm))]

/-- A denial makes the agent executor close the outcome list with the
denied call's user_denied outcome and perform nothing further. -/
theorem agent_exec_denied_trunc {pre : List (FunctionCall × CallEnv)}
    (post : List (FunctionCall × CallEnv)) (d : FunctionCall × CallEnv)
    (hpre : ∀ c ∈ pre, deniedQ c.1 c.2 = false) (hd : deniedQ d.1 d.2 = true) :
    Agent.exec_calls (pre ++ d :: post) =
      ((Agent.exec_calls pre).1 ++ [(d.1.name, { error := some "user_denied" })],
       (Agent.exec_calls pre).2) := by
  obtain ⟨fc, env⟩ := d
  rw [agent_exec_append (⟨fc, env⟩ :: post) hpre, agent_exec_cons_denied post hd]
  simp

/-- A denial makes the job_form executor close the outcome list with
the denied call's user_denied outcome and perform nothing further. -/
theorem job_exec_denied_trunc {pre : List (FunctionCall × CallEnv)}
    (post : List (FunctionCall × CallEnv)) (d : FunctionCall × CallEnv)
    (hpre : ∀ c ∈ pre, deniedQ c.1 c.2 = false) (hd : deniedQ d.1 d.2 = true) :
    JobForm.exec_calls (pre ++ d :: post) =
      ((JobForm.exec_calls pre).1 ++ [(d.1.name, { error := some "user_denied" })],
       (JobForm.exec_calls pre).2) := by
  obtain ⟨fc, env⟩ := d
  rw [job_exec_append (⟨fc, env⟩ :: post) hpre, job_exec_cons_denied post hd]
  simp

/- ----------------------------------------------------------------
   Claim C1: one ActionOutcome per ActionRequest, with truncation only
   at a safety denial.
   ---------------------------------------------------------------- -/

/-- C1 counterexample: in app.py a denied first call yields zero
outcomes, not a list truncated at (and including) the denied action as
the claim requires. -/
theorem c1_counterexample :
    (App.execute_function_calls 1440 900 [(riskyCall, denyEnv), (navCall, okEnv)]).1
      = Except.ok [] ∧
    ([] : List (String × Payload)) ≠ [("click_at", { error := some "user_denied" })] := by
  exact ⟨rfl, by decide⟩

/-- C1 (amended): in agent.py exec_calls the executor produces exactly
one outcome per request, in request order, even on failure; a safety
denial truncates the list at (and including) the denied action.  In
app.py execute_function_calls the same one-outcome-per-request shape
holds only when no load-state wait times out, and a denial truncates
the list strictly before the denied action, which receives no outcome. -/
theorem c1_outcome_per_request :
    (∀ l : List (FunctionCall × CallEnv), (∀ c ∈ l, deniedQ c.1 c.2 = false) →
      (Agent.exec_calls l).1.map Prod.fst = l.map (fun c => c.1.name)) ∧
    (∀ (pre post : List (FunctionCall × CallEnv)) (d : FunctionCall × CallEnv),
      (∀ c ∈ pre, deniedQ c.1 c.2 = false) → deniedQ d.1 d.2 = true →
      (Agent.exec_calls (pre ++ d :: post)).1.map Prod.fst
        = pre.map (fun c => c.1.name) ++ [d.1.name]) ∧
    (∀ (w h : Nat) (l : List (FunctionCall × CallEnv)),
      (∀ c ∈ l, deniedQ c.1 c.2 = false) → (∀ c ∈ l, c.2.loadWaitTimesOut = false) →
      ∃ outs, (App.execute_function_calls w h l).1 = .ok outs ∧
        outs.map Prod.fst = l.map (fun c => c.1.name)) ∧
    (∀ (w h : Nat) (pre post : List (FunctionCall × CallEnv)) (d : FunctionCall × CallEnv),
      (∀ c ∈ pre, deniedQ c.1 c.2 = false) → deniedQ d.1 d.2 = true →
      App.execute_function_calls w h (pre ++ d :: post)
        = App.execute_function_calls w h pre) := by
  refine ⟨fun l h => agent_exec_names h, fun pre post d hpre hd => ?_, ?_, ?_⟩
  · rw [agent_exec_denied_trunc post d hpre hd]
    simp [agent_exec_names hpre]
  · intro w h l hd ht
    exact app_exec_ok_names hd ht
  · intro w h pre post d hpre hd
    exact app_exec_denied_trunc post d hpre hd

/-- Witness for c1_outcome_per_request on a concrete two-action turn. -/
theorem c1_outcome_per_request_witness :
    (Agent.exec_calls [(navCall, okEnv), (keysCall, okEnv)]).1.map Prod.fst
      = ["navigate", "key_combination"] := by
  have h := c1_outcome_per_request.1 [(navCall, okEnv), (keysCall, okEnv)] (by decide)
  rw [h]
  rfl

/- ----------------------------------------------------------------
   Claim C2: a denied safety confirmation yields one user_denied
   outcome and stops the turn.
   ---------------------------------------------------------------- -/

/-- C2 counterexample: in app.py a denied call produces no outcome at
all (the loop breaks before appending), so no outcome with error
user_denied exists for the denied action. -/
theorem c2_counterexample :
    (App.execute_function_calls 1440 900 [(riskyCall, denyEnv)]).1 = Except.ok [] ∧
    (App.execute_function_calls 1440 900 [(riskyCall, denyEnv)]).2 = [] ∧
    ([] : List (String × Payload)).length ≠ 1 := by
  exact ⟨rfl, rfl, by decide⟩

/-- C2 (amended): in agent.py and job_form.py a denial appends exactly
one outcome for the denied action, with error user_denied, executes no
browser operation for it or for the remaining requests, and discards
the rest of the turn; in app.py a denial likewise abandons the denied
action and everything after it, but records no outcome for the denied
action. -/
theorem c2_safety_denial :
    (∀ (pre post : List (FunctionCall × CallEnv)) (d : FunctionCall × CallEnv),
      (∀ c ∈ pre, deniedQ c.1 c.2 = false) → deniedQ d.1 d.2 = true →
      Agent.exec_calls (pre ++ d :: post) =
        ((Agent.exec_calls pre).1 ++ [(d.1.name, { error := some "user_denied" })],
         (Agent.exec_calls pre).2)) ∧
    (∀ (pre post : List (FunctionCall × CallEnv)) (d : FunctionCall × CallEnv),
      (∀ c ∈ pre, deniedQ c.1 c.2 = false) → deniedQ d.1 d.2 = true →
      JobForm.exec_calls (pre ++ d :: post) =
        ((JobForm.exec_calls pre).1 ++ [(d.1.name, { error := some "user_denied" })],
         (JobForm.exec_calls pre).2)) ∧
    (∀ (w h : Nat) (pre post : List (FunctionCall × CallEnv)) (d : FunctionCall × CallEnv),
      (∀ c ∈ pre, deniedQ c.1 c.2 = false) → deniedQ d.1 d.2 = true →
      App.execute_function_calls w h (pre ++ d :: post)
        = App.execute_function_calls w h pre) :=
  ⟨fun _ post d hpre hd => agent_exec_denied_trunc post d hpre hd,
   fun _ post d hpre hd => job_exec_denied_trunc post d hpre hd,
   fun _ _ _ post d hpre hd => app_exec_denied_trunc post d hpre hd⟩

/-- Witness for c2_safety_denial on a concrete turn: one allowed
navigation, then a denied risky click, then a never-reached call. -/
theorem c2_safety_denial_witness :
    Agent.exec_calls [(navCall, okEnv), (riskyCall, denyEnv), (keysCall, okEnv)] =
      ([("navigate", {}), ("click_at", { error := some "user_denied" })],
       [.goto "https://example.com", .waitForLoadState 5000, .sleep 600]) := by
  have h := c2_safety_denial.1 [(navCall, okEnv)] [(keysCall, okEnv)]
    (riskyCall, denyEnv) (by decide) (by decide)
  rw [List.singleton_append] at h
  rw [h]
  rfl

/- ----------------------------------------------------------------
   Claim C3: session termination outcomes and the terminal character
   of a safety denial.
   ---------------------------------------------------------------- -/

/-- C3 (code bug): the turn loops of agent.py and job_form.py never
inspect the outcomes for a denial, so a session whose first turn is
denied by the operator still performs a second model request and ends
in the ordinary done state; no denial-terminal state exists.  On the
concrete denial session: the turn-0 outcome list records user_denied,
yet modelCalls = 2, meaning the loop requested another model turn
after the denial, contradicting the claim (and the scripts' own
printed messages about stopping). -/
theorem c3_denial_not_terminal :
    Agent.runSession denyOracle =
      { status := .done, modelCalls := 2,
        turnOutcomes := [[("click_at", { error := some "user_denied" })]] } ∧
    JobForm.runSession denyOracle =
      { status := .done, modelCalls := 2,
        turnOutcomes := [[("click_at", { error := some "user_denied" })]] } := by
  exact ⟨rfl, rfl⟩

/- ----------------------------------------------------------------
   Claim C4: post-action settling (load-state wait and fixed delay).
   ---------------------------------------------------------------- -/

/-- C4 counterexample: in agent.py an action whose browser operation
raises produces its error outcome but performs neither the load-state
wait nor the settling sleep, because both sit inside the try block
after the dispatch. -/
theorem c4_counterexample :
    (Agent.exec_calls [(navCall, failEnv)]).1
      = [("navigate", { error := some "net::ERR_ABORTED" })] ∧
    (Agent.exec_calls [(navCall, failEnv)]).2 = [] := by
  exact ⟨rfl, rfl⟩

/-- C4 (amended): in agent.py and job_form.py the bounded load-state
wait (whose own errors are swallowed) followed by the fixed settling
delay happens after every action whose browser operation completes,
but is skipped entirely when the operation raises; in app.py the wait
and delay follow the action on both the success and the error path,
but the wait does not swallow timeouts: a timeout propagates as an
exception. -/
theorem c4_settling :
    (∀ (fc : FunctionCall) (env : CallEnv) (rest : List (FunctionCall × CallEnv)),
      deniedQ fc env = false → env.opFailure = none →
      (Agent.exec_calls ((fc, env) :: rest)).2 =
        dispatchAgent fc.name fc.args
          ++ [.waitForLoadState 5000, .sleep 600] ++ (Agent.exec_calls rest).2) ∧
    (∀ (fc : FunctionCall) (env : CallEnv) (rest : List (FunctionCall × CallEnv))
        (k : Nat) (msg : String),
      deniedQ fc env = false → env.opFailure = some (k, msg) →
      k < (dispatchAgent fc.name fc.args).length →
      (Agent.exec_calls ((fc, env) :: rest)).2 =
        (dispatchAgent fc.name fc.args).take k ++ (Agent.exec_calls rest).2) ∧
    (∀ (fc : FunctionCall) (env : CallEnv) (rest : List (FunctionCall × CallEnv)),
      deniedQ fc env = false → env.opFailure = none →
      (JobForm.exec_calls ((fc, env) :: rest)).2 =
        dispatchJob fc.name fc.args
          ++ [.waitForLoadState 4000, .sleep 500] ++ (JobForm.exec_calls rest).2) ∧
    (∀ (fc : FunctionCall) (env : CallEnv) (rest : List (FunctionCall × CallEnv))
        (k : Nat) (msg : String),
      deniedQ fc env = false → env.opFailure = some (k, msg) →
      k < (dispatchJob fc.name fc.args).length →
      (JobForm.exec_calls ((fc, env) :: rest)).2 =
        (dispatchJob fc.name fc.args).take k ++ (JobForm.exec_calls rest).2) ∧
    (∀ (w h : Nat) (fc : FunctionCall) (env : CallEnv)
        (rest : List (FunctionCall × CallEnv)),
      deniedQ fc env = false → env.loadWaitTimesOut = false →
      (App.execute_function_calls w h ((fc, env) :: rest)).2 =
        (App.stepPayload w h fc env).2
          ++ [.waitForLoadState 8000, .sleep 1000]
          ++ (App.execute_function_calls w h rest).2) ∧
    (∀ (w h : Nat) (fc : FunctionCall) (env : CallEnv)
        (rest : List (FunctionCall × CallEnv)),
      deniedQ fc env = false → env.loadWaitTimesOut = true →
      App.execute_function_calls w h ((fc, env) :: rest) =
        (.error "Timeout 8000ms exceeded.",
         (App.stepPayload w h fc env).2 ++ [.waitForLoadState 8000])) := by
  refine ⟨?_, ?_, ?_, ?_, ?_, ?_⟩
  · intro fc env rest hd hof
    rw [agent_exec_cons_allowed rest hd]
    simp [Agent.stepPayload, hof]
  · intro fc env rest k msg hd hof hk
    rw [agent_exec_cons_allowed rest hd]
    simp [Agent.stepPayload, hof, hk]
  · intro fc env rest hd hof
    rw [job_exec_cons_allowed rest hd]
    simp [JobForm.stepPayload, hof]
  · intro fc env rest k msg hd hof hk
    rw [job_exec_cons_allowed rest hd]
    simp [JobForm.stepPayload, hof, hk]
  · intro w h fc env rest hd ht
    rw [app_exec_cons_allowed rest hd ht]
  · intro w h fc env rest hd ht
    exact app_exec_cons_timeout rest hd ht

/-- Witness for c4_settling: a successful navigation is followed by
the wait and the settling sleep. -/
theorem c4_settling_witness :
    (Agent.exec_calls [(navCall, okEnv)]).2 =
      [.goto "https://example.com", .waitForLoadState 5000, .sleep 600] := by
  have h := c4_settling.1 navCall okEnv [] rfl rfl
  rw [h]
  rfl

/- ----------------------------------------------------------------
   Claim C5: exceptions are absorbed per action.
   ---------------------------------------------------------------- -/

/-- C5 counterexample: in app.py, when the click operation raises and
the subsequent unguarded load-state wait times out, the turn aborts
with a propagated exception: the failed action gets no outcome, the
remaining key_combination action is never executed, and the turn loop
receives an exception rather than data. -/
theorem c5_counterexample :
    App.execute_function_calls 1440 900 [(clickCall, failTimeoutEnv), (keysCall, okEnv)] =
      (.error "Timeout 8000ms exceeded.", [.waitForLoadState 8000]) ∧
    (App.execute_function_calls 1440 900
      [(clickCall, failTimeoutEnv), (keysCall, okEnv)]).1.toOption = none := by
  exact ⟨rfl, rfl⟩

/-- C5 (amended): in agent.py an exception during an action's browser
operation is caught, recorded as the error field of that action's
outcome (alongside any warning or acknowledgement), and the remaining
actions of the turn are executed, one outcome each — nothing ever
propagates, the executor being a total function into outcome lists.
In app.py the same holds only while no load-state wait times out; the
unguarded wait after each action can propagate a timeout to the turn
loop, discarding all outcomes. -/
theorem c5_error_capture :
    (∀ (fc : FunctionCall) (env : CallEnv) (rest : List (FunctionCall × CallEnv))
        (k : Nat) (msg : String),
      deniedQ fc env = false → env.opFailure = some (k, msg) →
      k < (dispatchAgent fc.name fc.args).length →
      (Agent.exec_calls ((fc, env) :: rest)).1 =
        (fc.name,
         { error := some msg,
           warning := if recognizedAgent fc.name then none else some "unimplemented_action",
           safety_acknowledgement := fc.args.safety_decision })
          :: (Agent.exec_calls rest).1) ∧
    (∀ l : List (FunctionCall × CallEnv), (∀ c ∈ l, deniedQ c.1 c.2 = false) →
      (Agent.exec_calls l).1.length = l.length) ∧
    (∀ (w h : Nat) (fc : FunctionCall) (env : CallEnv)
        (rest : List (FunctionCall × CallEnv)) (k : Nat) (msg : String)
        (outs : List (String × Payload)),
      deniedQ fc env = false → env.opFailure = some (k, msg) →
      k < (dispatchApp fc.name fc.args w h).length → env.loadWaitTimesOut = false →
      (App.execute_function_calls w h rest).1 = .ok outs →
      (App.execute_function_calls w h ((fc, env) :: rest)).1 =
        .ok ((fc.name,
              { error := some msg, safety_acknowledgement := fc.args.safety_decision })
             :: outs)) := by
  refine ⟨?_, fun l h => agent_exec_length h, ?_⟩
  · intro fc env rest k msg hd hof hk
    rw [agent_exec_cons_allowed rest hd]
    simp [Agent.stepPayload, hof, hk]
  · intro w h fc env rest k msg outs hd hof hk ht houts
    rw [app_exec_cons_allowed rest hd ht]
    simp [houts, App.stepPayload, hof, hk]

/-- Witness for c5_error_capture: a failing navigation is recorded and
the following key_combination still runs. -/
theorem c5_error_capture_witness :
    (Agent.exec_calls [(navCall, failEnv), (keysCall, okEnv)]).1 =
      [("navigate", { error := some "net::ERR_ABORTED" }), ("key_combination", {})] := by
  have h := c5_error_capture.1 navCall failEnv [(keysCall, okEnv)] 0 "net::ERR_ABORTED"
    rfl rfl (by decide)
  rw [h]
  rfl

/- ----------------------------------------------------------------
   Claim C7: unrecognized action names.
   ---------------------------------------------------------------- -/

/-- An unrecognized name falls through every branch of the agent.py
dispatch chain, performing no browser operation. -/
theorem dispatch_agent_unrecognized {name : String} (a : Args)
    (h : recognizedAgent name = false) : dispatchAgent name a = [] := by
  simp only [recognizedAgent, Bool.or_eq_false_iff] at h
  simp [dispatchAgent, h]

/-- An unrecognized name falls through every branch of the job_form.py
dispatch chain, performing no browser operation. -/
theorem dispatch_job_unrecognized {name : String} (a : Args)
    (h : recognizedJob name = false) : dispatchJob name a = [] := by
  simp only [recognizedJob, Bool.or_eq_false_iff] at h
  simp [dispatchJob, h]

/-- C7 counterexample: job_form.py marks an unrecognized action with
warning = "unimplemented", not "unimplemented_action" as claimed. -/
theorem c7_counterexample :
    (JobForm.exec_calls [(fooCall, okEnv)]).1 =
      [("take_screenshot", { warning := some "unimplemented" })] ∧
    some "unimplemented" ≠ some "unimplemented_action" := by
  exact ⟨rfl, by decide⟩

/-- C7 (amended): an unrecognized action name performs no browser
operation and yields an outcome with a warning marker and no error
field, the action otherwise treated as a successful no-op followed by
the usual settling; the marker string is "unimplemented_action" in
agent.py but "unimplemented" in job_form.py. -/
theorem c7_unimplemented :
    (∀ (fc : FunctionCall) (env : CallEnv) (rest : List (FunctionCall × CallEnv)),
      recognizedAgent fc.name = false → deniedQ fc env = false →
      dispatchAgent fc.name fc.args = [] ∧
      (Agent.exec_calls ((fc, env) :: rest)).1 =
        (fc.name, { warning := some "unimplemented_action",
                    safety_acknowledgement := fc.args.safety_decision })
          :: (Agent.exec_calls rest).1 ∧
      (Agent.exec_calls ((fc, env) :: rest)).2 =
        [.waitForLoadState 5000, .sleep 600] ++ (Agent.exec_calls rest).2) ∧
    (∀ (fc : FunctionCall) (env : CallEnv) (rest : List (FunctionCall × CallEnv)),
      recognizedJob fc.name = false → deniedQ fc env = false →
      dispatchJob fc.name fc.args = [] ∧
      (JobForm.exec_calls ((fc, env) :: rest)).1 =
        (fc.name, { warning := some "unimplemented",
                    safety_acknowledgement := fc.args.safety_decision })
          :: (JobForm.exec_calls rest).1 ∧
      (JobForm.exec_calls ((fc, env) :: rest)).2 =
        [.waitForLoadState 4000, .sleep 500] ++ (JobForm.exec_calls rest).2) := by
  constructor
  · intro fc env rest hrec hd
    have hops := dispatch_agent_unrecognized fc.args hrec
    rw [agent_exec_cons_allowed rest hd]
    refine ⟨hops, ?_, ?_⟩ <;>
      cases hof : env.opFailure <;> simp [Agent.stepPayload, hof, hops, hrec]
  · intro fc env rest hrec hd
    have hops := dispatch_job_unrecognized fc.args hrec
    rw [job_exec_cons_allowed rest hd]
    refine ⟨hops, ?_, ?_⟩ <;>
      cases hof : env.opFailure <;> simp [JobForm.stepPayload, hof, hops, hrec]

/-- Witness for c7_unimplemented on the concrete unrecognized call. -/
theorem c7_unimplemented_witness :
    (Agent.exec_calls [(fooCall, okEnv)]).1 =
      [("take_screenshot", { warning := some "unimplemented_action" })] := by
  have h := (c7_unimplemented.1 fooCall okEnv [] rfl rfl).2.1
  rw [h]
  rfl

/- ----------------------------------------------------------------
   Claim C8: one screenshot and one URL read per turn, shared by all
   outcomes.
   ---------------------------------------------------------------- -/

/-- C8 (as stated): the observation builders of agent.py and app.py
capture exactly one screenshot and read the URL exactly once per turn,
and pair every outcome with that same screenshot and URL; the response
list preserves the outcome names and payloads in order. -/
theorem c8_single_observation (page : Page) (results : List (String × Payload)) :
    (Agent.build_function_responses page results).2.screenshotCount
        = page.screenshotCount + 1 ∧
    (Agent.build_function_responses page results).2.urlReadCount
        = page.urlReadCount + 1 ∧
    (Agent.build_function_responses page results).1.length = results.length ∧
    (∀ fr ∈ (Agent.build_function_responses page results).1,
      fr.image = page.shotData ∧ fr.url = page.url) ∧
    (Agent.build_function_responses page results).1.map (fun fr => (fr.name, fr.payload))
        = results ∧
    (App.get_function_responses page results).2.screenshotCount
        = page.screenshotCount + 1 ∧
    (App.get_function_responses page results).2.urlReadCount
        = page.urlReadCount + 1 ∧
    (App.get_function_responses page results).1.length = results.length ∧
    (∀ fr ∈ (App.get_function_responses page results).1,
      fr.image = page.shotData ∧ fr.url = page.url) ∧
    (App.get_function_responses page results).1.map (fun fr => (fr.name, fr.payload))
        = results := by
  refine ⟨rfl, rfl, by simp [Agent.build_function_responses], ?_, ?_,
    rfl, rfl, by simp [App.get_function_responses], ?_, ?_⟩
  · intro fr hfr
    simp only [Agent.build_function_responses, Page.screenshot, Page.readUrl,
      List.mem_map] at hfr
    obtain ⟨r, hr, rfl⟩ := hfr
    exact ⟨rfl, rfl⟩
  · simp only [Agent.build_function_responses, Page.screenshot, Page.readUrl,
      List.map_map]
    have hco : ((fun fr : FunctionResponse => (fr.name, fr.payload)) ∘
        fun r : String × Payload =>
          ({ name := r.1, url := page.url, payload := r.2, image := page.shotData } :
            FunctionResponse)) = fun r => r := by
      funext r
      rfl
    rw [hco]
    simp
  · intro fr hfr
    simp only [App.get_function_responses, Page.screenshot, Page.readUrl,
      List.mem_map] at hfr
    obtain ⟨r, hr, rfl⟩ := hfr
    exact ⟨rfl, rfl⟩
  · simp only [App.get_function_responses, Page.screenshot, Page.readUrl,
      List.map_map]
    have hco : ((fun fr : FunctionResponse => (fr.name, fr.payload)) ∘
        fun r : String × Payload =>
          ({ name := r.1, url := page.url, payload := r.2, image := page.shotData } :
            FunctionResponse)) = fun r => r := by
      funext r
      rfl
    rw [hco]
    simp

/-- Witness for c8_single_observation on a concrete page and two
outcomes. -/
theorem c8_single_observation_witness :
    (Agent.build_function_responses
        { shotData := 7, url := "https://example.com" }
        [("navigate", {}), ("click_at", {})]).2.screenshotCount = 1 ∧
    (Agent.build_function_responses
        { shotData := 7, url := "https://example.com" }
        [("navigate", {}), ("click_at", {})]).2.urlReadCount = 1 := by
  have h := c8_single_observation { shotData := 7, url := "https://example.com" }
    [("navigate", {}), ("click_at", {})]
  exact ⟨h.1, h.2.1⟩

/- ----------------------------------------------------------------
   Claim C9: omitted clear_before_typing defaults to clearing.
   ---------------------------------------------------------------- -/

/-- C9 (as stated): when type_text_at omits clear_before_typing, both
agent.py and job_form.py click the target and then clear the field
with select-all followed by delete before typing, exactly as when the
flag is passed as true. -/
theorem c9_clear_default (a : Args) (h : a.clear_before_typing = none) :
    dispatchAgent "type_text_at" a =
      [BrowserOp.mouseClick (denorm_x a.x) (denorm_y a.y),
       BrowserOp.keyPress "Meta+A", BrowserOp.keyPress "Backspace",
       BrowserOp.keyType a.text]
        ++ (if a.press_enter.getD true then [BrowserOp.keyPress "Enter"] else []) ∧
    dispatchJob "type_text_at" a =
      [BrowserOp.mouseClick (denorm_x a.x) (denorm_y a.y),
       BrowserOp.keyPress "Meta+A", BrowserOp.keyPress "Backspace",
       BrowserOp.keyType a.text]
        ++ (if a.press_enter.getD false then [BrowserOp.keyPress "Enter"] else []) ∧
    dispatchAgent "type_text_at" a =
      dispatchAgent "type_text_at" { a with clear_before_typing := some true } ∧
    dispatchJob "type_text_at" a =
      dispatchJob "type_text_at" { a with clear_before_typing := some true } := by
  refine ⟨?_, ?_, ?_, ?_⟩ <;> simp [dispatchAgent, dispatchJob, h]

/-- Witness for c9_clear_default on the concrete typing call. -/
theorem c9_clear_default_witness :
    dispatchAgent "type_text_at" typeCall.args =
      [BrowserOp.mouseClick 288 270, BrowserOp.keyPress "Meta+A",
       BrowserOp.keyPress "Backspace", BrowserOp.keyType "hello",
       BrowserOp.keyPress "Enter"] := by
  have h := (c9_clear_default typeCall.args rfl).1
  rw [h]
  rfl

/- ----------------------------------------------------------------
   Claim C10: the acknowledgement survives the error path.
   ---------------------------------------------------------------- -/

/-- C10 (as stated): when the operator allows a safety-gated action
and its browser operation then raises, the outcome of that action
carries both the error message and safety_acknowledgement = true, in
agent.py and in job_form.py alike. -/
theorem c10_ack_on_error :
    (∀ (fc : FunctionCall) (env : CallEnv) (rest : List (FunctionCall × CallEnv))
        (k : Nat) (msg : String),
      fc.args.safety_decision = true → env.userAllows = true →
      env.opFailure = some (k, msg) → k < (dispatchAgent fc.name fc.args).length →
      (Agent.exec_calls ((fc, env) :: rest)).1 =
        (fc.name,
         { error := some msg,
           warning := if recognizedAgent fc.name then none else some "unimplemented_action",
           safety_acknowledgement := true })
          :: (Agent.exec_calls rest).1) ∧
    (∀ (fc : FunctionCall) (env : CallEnv) (rest : List (FunctionCall × CallEnv))
        (k : Nat) (msg : String),
      fc.args.safety_decision = true → env.userAllows = true →
      env.opFailure = some (k, msg) → k < (dispatchJob fc.name fc.args).length →
      (JobForm.exec_calls ((fc, env) :: rest)).1 =
        (fc.name,
         { error := some msg,
           warning := if recognizedJob fc.name then none else some "unimplemented",
           safety_acknowledgement := true })
          :: (JobForm.exec_calls rest).1) := by
  constructor
  · intro fc env rest k msg hs ha hof hk
    have hd : deniedQ fc env = false := by simp [deniedQ, hs, ha]
    rw [agent_exec_cons_allowed rest hd]
    simp [Agent.stepPayload, hof, hk, hs]
  · intro fc env rest k msg hs ha hof hk
    have hd : deniedQ fc env = false := by simp [deniedQ, hs, ha]
    rw [job_exec_cons_allowed rest hd]
    simp [JobForm.stepPayload, hof, hk, hs]

/-- Witness for c10_ack_on_error: an allowed risky click whose
operation raises keeps its acknowledgement alongside the error. -/
theorem c10_ack_on_error_witness :
    (Agent.exec_calls [(riskyCall, allowFailEnv)]).1 =
      [("click_at", { error := some "boom", safety_acknowledgement := true })] := by
  have h := c10_ack_on_error.1 riskyCall allowFailEnv [] 0 "boom" rfl rfl rfl (by decide)
  rw [h]
  rfl
